import Mathlib

/-!
Verification of the accelerator device-management binding surface
(`torch/csrc/DeviceAccelerator.cpp`).

The binding file exposes seven entry points, each delegating to an
accelerator-abstraction layer that lives outside the file.  The collaborator
layer is modelled as an explicit state (`AccelState`), and every collaborator
primitive both transforms that state and appends events to a trace
(`Event`), so that claims of the form "does not invoke primitive X" or
"invokes X before Y" become statements about the produced trace.  The seven
binding lambdas themselves are translated line by line from the source.
-/

namespace TorchAccel

/-- Device kinds of the c10 layer that are relevant here: the CPU fallback
kind and the accelerator backends. -/
inductive DeviceType where
  | cpu
  | cuda
  | hip
  | xpu
  | mps
  | mtia
  | privateUse1
deriving DecidableEq, Repr

/-- A c10 device identifier: a kind together with a device index.
Constructing a device from a kind alone (as `c10::Device(DeviceType)` does)
leaves the index at the unspecified sentinel `-1`. -/
structure Device where
  kind : DeviceType
  index : Int
deriving DecidableEq, Repr

/-- A c10 stream handle: bound to a device kind and device index, with an
opaque id.  The binding only reads `device_index`. -/
structure Stream where
  device_type : DeviceType
  device_index : Int
  id : Nat
deriving DecidableEq, Repr

/-- Modelled from the spec: the state owned by the external accelerator
layer (none of it lives in the binding file).  It holds the optionally
resolvable accelerator kind, the per-backend lazily-initialized flags, the
currently selected device index, the current stream of each device index,
and the device count the enumeration primitive reports. -/
structure AccelState where
  accel : Option DeviceType
  initialized : DeviceType → Bool
  currentIndex : Int
  currentStream : Int → Stream
  devCount : Nat

/-- Observable calls into the collaborator layer, recorded as a trace so
that frame conditions ("no set-device-index call") and ordering ("device
switched before the stream is activated", "lock released around the
blocking wait") can be stated. -/
inductive Event where
  | initDevice (dt : DeviceType)
  | setDeviceIndex (i : Int)
  | setCurrentStream (st : Stream)
  | synchronizeDevice (i : Int)
  | gilRelease
  | gilReacquire
deriving DecidableEq, Repr

/-- The only failure mode the binding can surface: strict accelerator
resolution finds no accelerator backend. -/
inductive AccelError where
  | noAccelerator
deriving DecidableEq, Repr

/-- Modelled from the spec: `at::accelerator::getAccelerator(checked)`.
Non-strict resolution returns the optional accelerator kind; strict
resolution (`checked = true`, followed by `.value()` at every call site)
fails when none is resolvable. -/
def getAcceleratorChecked (s : AccelState) : Except AccelError DeviceType :=
  match s.accel with
  | some dt => .ok dt
  | none => .error .noAccelerator

/-- Modelled from the spec: `torch::utils::maybe_initialize_device` on a
device kind — lazy per-backend initialization keyed by accelerator kind.
If the backend is already initialized it is a no-op; otherwise it performs
the initialization (recorded as an `initDevice` event). -/
def maybe_initialize_device (dt : DeviceType) (s : AccelState) :
    AccelState × List Event :=
  if s.initialized dt then (s, [])
  else
    ({ s with initialized := fun d => if d = dt then true else s.initialized d },
     [Event.initDevice dt])

/-- Modelled from the spec: the overload of `maybe_initialize_device`
taking an optional device kind; a no-op when the optional is empty. -/
def maybe_initialize_device_opt (dt? : Option DeviceType) (s : AccelState) :
    AccelState × List Event :=
  match dt? with
  | none => (s, [])
  | some dt => maybe_initialize_device dt s

/-- Modelled from the spec: `torch::utils::is_device_initialized`, the
device-initialized query the collaborator must supply. -/
def is_device_initialized (dt : DeviceType) (s : AccelState) : Bool :=
  s.initialized dt

/-- Modelled from the spec: `at::accelerator::deviceCount`, the device
enumeration primitive.  The spec only states that it reports an integer
count; it is modelled as a state field, with count `0` when no accelerator
backend is available. -/
def at_deviceCount (s : AccelState) : Nat :=
  match s.accel with
  | none => 0
  | some _ => s.devCount

/-- Modelled from the spec: `at::accelerator::setDeviceIndex`, the
device-index set primitive: it makes the given index the currently
selected one. -/
def at_setDeviceIndex (i : Int) (s : AccelState) : AccelState × List Event :=
  ({ s with currentIndex := i }, [Event.setDeviceIndex i])

/-- Modelled from the spec: `at::accelerator::getDeviceIndex`, the
device-index get primitive: it reports the currently selected index. -/
def at_getDeviceIndex (s : AccelState) : Int :=
  s.currentIndex

/-- Modelled from the spec: `at::accelerator::setCurrentStream`, the
current-stream set primitive: it activates the given stream as the current
stream of the stream's own device index. -/
def at_setCurrentStream (st : Stream) (s : AccelState) :
    AccelState × List Event :=
  ({ s with currentStream :=
      fun i => if i = st.device_index then st else s.currentStream i },
   [Event.setCurrentStream st])

/-- Modelled from the spec: `at::accelerator::getCurrentStream`, the
current-stream get primitive for a given device index. -/
def at_getCurrentStream (i : Int) (s : AccelState) : Stream :=
  s.currentStream i

/-- Modelled from the spec: `at::accelerator::synchronizeDevice`, the
blocking device-synchronize primitive; its invocation is recorded as a
trace event. -/
def at_synchronizeDevice (i : Int) : List Event :=
  [Event.synchronizeDevice i]

/-- Binding `_accelerator_getAccelerator`: non-strict resolution with
`value_or(kCPU)`, wrapped in a `c10::Device` (whose index defaults to the
`-1` sentinel).  Total: it cannot fail. -/
def _accelerator_getAccelerator (s : AccelState) : Device :=
  { kind := s.accel.getD DeviceType.cpu, index := -1 }

/-- Binding `_accelerator_deviceCount`: non-strict resolution, lazy
initialization of the resolved backend (no-op when none), then the
enumeration primitive's count. -/
def _accelerator_deviceCount (s : AccelState) :
    Except AccelError (Nat × AccelState × List Event) :=
  let device_type := s.accel
  let (s1, tr1) := maybe_initialize_device_opt device_type s
  .ok (at_deviceCount s1, s1, tr1)

/-- Binding `_accelerator_setDeviceIndex`: strict resolution, then the
negative-index no-op check, then lazy initialization and the set
primitive. -/
def _accelerator_setDeviceIndex (device_index : Int) (s : AccelState) :
    Except AccelError (AccelState × List Event) :=
  match getAcceleratorChecked s with
  | .error e => .error e
  | .ok device_type =>
    if device_index < 0 then
      .ok (s, [])
    else
      let (s1, tr1) := maybe_initialize_device device_type s
      let (s2, tr2) := at_setDeviceIndex device_index s1
      .ok (s2, tr1 ++ tr2)

/-- Binding `_accelerator_getDeviceIndex`: strict resolution, lazy
initialization, then the get primitive. -/
def _accelerator_getDeviceIndex (s : AccelState) :
    Except AccelError (Int × AccelState × List Event) :=
  match getAcceleratorChecked s with
  | .error e => .error e
  | .ok device_type =>
    let (s1, tr1) := maybe_initialize_device device_type s
    .ok (at_getDeviceIndex s1, s1, tr1)

/-- Binding `_accelerator_setStream`: strict resolution, lazy
initialization, a device switch to the stream's device index when the
current index differs, then activation of the stream. -/
def _accelerator_setStream (stream : Stream) (s : AccelState) :
    Except AccelError (AccelState × List Event) :=
  match getAcceleratorChecked s with
  | .error e => .error e
  | .ok device_type =>
    let (s1, tr1) := maybe_initialize_device device_type s
    let (s2, tr2) :=
      if at_getDeviceIndex s1 ≠ stream.device_index then
        at_setDeviceIndex stream.device_index s1
      else
        (s1, [])
    let (s3, tr3) := at_setCurrentStream stream s2
    .ok (s3, tr1 ++ tr2 ++ tr3)

/-- Binding `_accelerator_getStream`: strict resolution, lazy
initialization, then the current-stream query for the given index. -/
def _accelerator_getStream (device_index : Int) (s : AccelState) :
    Except AccelError (Stream × AccelState × List Event) :=
  match getAcceleratorChecked s with
  | .error e => .error e
  | .ok device_type =>
    let (s1, tr1) := maybe_initialize_device device_type s
    .ok (at_getCurrentStream device_index s1, s1, tr1)

/-- Binding `_accelerator_synchronizeDevice`: strict resolution, early
return when the backend was never initialized, then (redundant) lazy
initialization and the blocking synchronize executed between a GIL release
and reacquire. -/
def _accelerator_synchronizeDevice (device_index : Int) (s : AccelState) :
    Except AccelError (AccelState × List Event) :=
  match getAcceleratorChecked s with
  | .error e => .error e
  | .ok device_type =>
    if ¬ is_device_initialized device_type s then
      .ok (s, [])
    else
      let (s1, tr1) := maybe_initialize_device device_type s
      .ok (s1, tr1 ++ [Event.gilRelease] ++ at_synchronizeDevice device_index
             ++ [Event.gilReacquire])

/-- Concrete stream used by the witness states. -/
def stream0 : Stream :=
  { device_type := DeviceType.cuda, device_index := 0, id := 0 }

/-- Concrete state with a resolvable CUDA accelerator, nothing
initialized, device index 0 selected. -/
def testState : AccelState :=
  { accel := some DeviceType.cuda
    initialized := fun _ => false
    currentIndex := 0
    currentStream := fun _ => stream0
    devCount := 2 }

/-- Concrete state in which no accelerator is resolvable. -/
def noAccelState : AccelState :=
  { accel := none
    initialized := fun _ => false
    currentIndex := 0
    currentStream := fun _ => stream0
    devCount := 0 }

/-- Concrete state with a resolvable CUDA accelerator whose backend is
already initialized. -/
def initState : AccelState :=
  { accel := some DeviceType.cuda
    initialized := fun _ => true
    currentIndex := 0
    currentStream := fun _ => stream0
    devCount := 2 }

/-- Lazy initialization does not touch the resolvable-accelerator field. -/
theorem mid_accel (dt : DeviceType) (s : AccelState) :
    ((maybe_initialize_device dt s).1).accel = s.accel := by
  unfold maybe_initialize_device
  split <;> rfl

/-- Lazy initialization does not touch the currently selected index. -/
theorem mid_currentIndex (dt : DeviceType) (s : AccelState) :
    ((maybe_initialize_device dt s).1).currentIndex = s.currentIndex := by
  unfold maybe_initialize_device
  split <;> rfl

/-- Lazy initialization does not touch the current streams. -/
theorem mid_currentStream (dt : DeviceType) (s : AccelState) :
    ((maybe_initialize_device dt s).1).currentStream = s.currentStream := by
  unfold maybe_initialize_device
  split <;> rfl

/-- Lazy initialization does not touch the reported device count. -/
theorem mid_devCount (dt : DeviceType) (s : AccelState) :
    ((maybe_initialize_device dt s).1).devCount = s.devCount := by
  unfold maybe_initialize_device
  split <;> rfl

/-- After lazy initialization the backend is initialized. -/
theorem mid_initialized_self (dt : DeviceType) (s : AccelState) :
    ((maybe_initialize_device dt s).1).initialized dt = true := by
  unfold maybe_initialize_device
  split
  · assumption
  · simp

/-- The initialization trace contains no `setDeviceIndex` event. -/
theorem mid_trace_no_setDeviceIndex (dt : DeviceType) (s : AccelState) (j : Int) :
    Event.setDeviceIndex j ∉ (maybe_initialize_device dt s).2 := by
  unfold maybe_initialize_device
  split <;> simp

/-- C1: for every negative device index and every prior state in which an
accelerator is resolvable, `_accelerator_setDeviceIndex` returns with the
state unchanged (in particular the currently selected device index) and an
empty collaborator trace: no initialization and no set call happen. -/
theorem setDeviceIndex_negative_noop (s : AccelState) (i : Int)
    (hacc : s.accel.isSome = true) (hneg : i < 0) :
    _accelerator_setDeviceIndex i s = .ok (s, []) := by
  unfold _accelerator_setDeviceIndex getAcceleratorChecked
  cases h : s.accel with
  | none => rw [h] at hacc; simp at hacc
  | some dt => simp [hneg]

/-- Witness for C1 at the concrete state `testState` and index `-1`. -/
theorem setDeviceIndex_negative_noop_witness :
    testState.accel.isSome = true ∧ (-1 : Int) < 0 ∧
    _accelerator_setDeviceIndex (-1) testState = .ok (testState, []) :=
  ⟨rfl, by decide, setDeviceIndex_negative_noop testState (-1) rfl (by decide)⟩

/-- C2: `_accelerator_getAccelerator` is total (it cannot raise) and
returns the CPU-kind device identifier when no accelerator backend is
available, and the accelerator's own kind when one is. -/
theorem getAccelerator_cpu_fallback (s : AccelState) :
    (s.accel = none →
      _accelerator_getAccelerator s = { kind := DeviceType.cpu, index := -1 }) ∧
    (∀ dt, s.accel = some dt →
      _accelerator_getAccelerator s = { kind := dt, index := -1 }) := by
  refine ⟨fun h => ?_, fun dt h => ?_⟩
  · simp [_accelerator_getAccelerator, h]
  · simp [_accelerator_getAccelerator, h]

/-- Witness for C2 at the concrete states `noAccelState` and `testState`. -/
theorem getAccelerator_cpu_fallback_witness :
    noAccelState.accel = none ∧
    _accelerator_getAccelerator noAccelState
      = { kind := DeviceType.cpu, index := -1 } ∧
    _accelerator_getAccelerator testState
      = { kind := DeviceType.cuda, index := -1 } :=
  ⟨rfl, (getAccelerator_cpu_fallback noAccelState).1 rfl,
    (getAccelerator_cpu_fallback testState).2 DeviceType.cuda rfl⟩

/-- C3: for every device index, `_accelerator_synchronizeDevice` on a state
whose resolved accelerator backend is not initialized returns with the
state unchanged and an empty trace: neither the blocking synchronize
primitive nor any initialization is invoked. -/
theorem synchronizeDevice_uninitialized_noop (s : AccelState) (dt : DeviceType)
    (i : Int) (hacc : s.accel = some dt) (hinit : s.initialized dt = false) :
    _accelerator_synchronizeDevice i s = .ok (s, []) := by
  unfold _accelerator_synchronizeDevice getAcceleratorChecked is_device_initialized
  simp [hacc, hinit]

/-- Witness for C3 at the concrete state `testState` and index `0`. -/
theorem synchronizeDevice_uninitialized_noop_witness :
    testState.accel = some DeviceType.cuda ∧
    testState.initialized DeviceType.cuda = false ∧
    _accelerator_synchronizeDevice 0 testState = .ok (testState, []) :=
  ⟨rfl, rfl,
    synchronizeDevice_uninitialized_noop testState DeviceType.cuda 0 rfl rfl⟩

/-- C9: when no accelerator is resolvable, `_accelerator_setDeviceIndex`
fails with the strict-resolution error for every index — negative indices
included, since strict resolution precedes the negative-index check. -/
theorem setDeviceIndex_requires_accelerator (s : AccelState) (i : Int)
    (hacc : s.accel = none) :
    _accelerator_setDeviceIndex i s = .error .noAccelerator := by
  unfold _accelerator_setDeviceIndex getAcceleratorChecked
  simp [hacc]

/-- Witness for C9 at the concrete state `noAccelState` and the negative
index `-5`. -/
theorem setDeviceIndex_requires_accelerator_witness :
    noAccelState.accel = none ∧
    _accelerator_setDeviceIndex (-5) noAccelState = .error .noAccelerator :=
  ⟨rfl, setDeviceIndex_requires_accelerator noAccelState (-5) rfl⟩

/-- C4: for every stream bound to device index D, calling
`_accelerator_setStream` when the active device index differs from D
switches the active index to D strictly before activating the stream (the
trace records the set-index call before the set-stream call), and
afterwards the active index is D and the current stream on D is the given
stream. -/
theorem setStream_switches_device (s : AccelState) (dt : DeviceType) (st : Stream)
    (hacc : s.accel = some dt) (hne : s.currentIndex ≠ st.device_index) :
    ∃ s' : AccelState,
      _accelerator_setStream st s =
        .ok (s', (maybe_initialize_device dt s).2 ++
              [Event.setDeviceIndex st.device_index, Event.setCurrentStream st]) ∧
      s'.currentIndex = st.device_index ∧
      s'.currentStream st.device_index = st := by
  refine ⟨{ (maybe_initialize_device dt s).1 with
            currentIndex := st.device_index,
            currentStream := fun i => if i = st.device_index then st
              else ((maybe_initialize_device dt s).1).currentStream i },
          ?_, rfl, by simp⟩
  unfold _accelerator_setStream getAcceleratorChecked at_getDeviceIndex
    at_setDeviceIndex at_setCurrentStream
  rw [hacc]
  simp only [mid_currentIndex]
  rw [if_pos hne]
  simp

/-- Witness for C4 at the concrete state `testState` (active index `0`)
and a stream bound to device index `1`. -/
theorem setStream_switches_device_witness :
    testState.accel = some DeviceType.cuda ∧
    testState.currentIndex ≠ (1 : Int) ∧
    ∃ s' : AccelState,
      _accelerator_setStream { device_type := DeviceType.cuda,
                               device_index := 1, id := 7 } testState =
        .ok (s', (maybe_initialize_device DeviceType.cuda testState).2 ++
              [Event.setDeviceIndex 1,
               Event.setCurrentStream { device_type := DeviceType.cuda,
                                        device_index := 1, id := 7 }]) ∧
      s'.currentIndex = 1 ∧
      s'.currentStream 1 = { device_type := DeviceType.cuda,
                             device_index := 1, id := 7 } :=
  ⟨rfl, by decide,
    setStream_switches_device testState DeviceType.cuda
      { device_type := DeviceType.cuda, device_index := 1, id := 7 }
      rfl (by decide)⟩

/-- C10: calling `_accelerator_setStream` with a stream whose device index
equals the active device index never invokes the collaborator's
set-device-index primitive: the active index is unchanged and the trace
holds only the (possible) initialization and the stream activation. -/
theorem setStream_same_device_no_switch (s : AccelState) (dt : DeviceType)
    (st : Stream) (hacc : s.accel = some dt)
    (heq : s.currentIndex = st.device_index) :
    ∃ s' : AccelState,
      _accelerator_setStream st s =
        .ok (s', (maybe_initialize_device dt s).2 ++ [Event.setCurrentStream st]) ∧
      s'.currentIndex = s.currentIndex ∧
      s'.currentStream st.device_index = st ∧
      ∀ j : Int, Event.setDeviceIndex j ∉
        (maybe_initialize_device dt s).2 ++ [Event.setCurrentStream st] := by
  have hmain : _accelerator_setStream st s =
      .ok ({ (maybe_initialize_device dt s).1 with
             currentStream := fun i => if i = st.device_index then st
               else ((maybe_initialize_device dt s).1).currentStream i },
           (maybe_initialize_device dt s).2 ++ [Event.setCurrentStream st]) := by
    unfold _accelerator_setStream getAcceleratorChecked at_getDeviceIndex
      at_setDeviceIndex at_setCurrentStream
    rw [hacc]
    simp only [mid_currentIndex]
    rw [if_neg (by simp [heq])]
    simp [mid_currentIndex]
  exact ⟨_, hmain, mid_currentIndex dt s, by simp,
    fun j => by simp [mid_trace_no_setDeviceIndex]⟩

/-- Witness for C10 at the concrete state `testState` (active index `0`)
and a stream bound to device index `0`. -/
theorem setStream_same_device_no_switch_witness :
    testState.accel = some DeviceType.cuda ∧
    testState.currentIndex = (0 : Int) ∧
    ∃ s' : AccelState,
      _accelerator_setStream { device_type := DeviceType.cuda,
                               device_index := 0, id := 9 } testState =
        .ok (s', (maybe_initialize_device DeviceType.cuda testState).2 ++
              [Event.setCurrentStream { device_type := DeviceType.cuda,
                                        device_index := 0, id := 9 }]) ∧
      s'.currentIndex = testState.currentIndex ∧
      s'.currentStream 0 = { device_type := DeviceType.cuda,
                             device_index := 0, id := 9 } ∧
      ∀ j : Int, Event.setDeviceIndex j ∉
        (maybe_initialize_device DeviceType.cuda testState).2 ++
          [Event.setCurrentStream { device_type := DeviceType.cuda,
                                    device_index := 0, id := 9 }] :=
  ⟨rfl, rfl,
    setStream_same_device_no_switch testState DeviceType.cuda
      { device_type := DeviceType.cuda, device_index := 0, id := 9 } rfl rfl⟩

/-- C5 counterexample: at the concrete state with no resolvable
accelerator, `_accelerator_deviceCount` does not fail — it succeeds with
count `0`, an unchanged state and an empty trace — refuting the claim that
the device-count operation requires a resolvable accelerator and fails
when none exists. -/
theorem deviceCount_no_accelerator_succeeds :
    _accelerator_deviceCount noAccelState = .ok (0, noAccelState, []) := rfl

/-- C5 amended: set device index, get device index, set stream, get stream
and synchronize device all fail with the strict-resolution error when no
accelerator is resolvable, while device count (which resolves
non-strictly) succeeds with count `0`. -/
theorem strict_ops_require_accelerator (s : AccelState) (i : Int) (st : Stream)
    (hacc : s.accel = none) :
    _accelerator_setDeviceIndex i s = .error .noAccelerator ∧
    _accelerator_getDeviceIndex s = .error .noAccelerator ∧
    _accelerator_setStream st s = .error .noAccelerator ∧
    _accelerator_getStream i s = .error .noAccelerator ∧
    _accelerator_synchronizeDevice i s = .error .noAccelerator ∧
    _accelerator_deviceCount s = .ok (0, s, []) := by
  unfold _accelerator_setDeviceIndex _accelerator_getDeviceIndex
    _accelerator_setStream _accelerator_getStream _accelerator_synchronizeDevice
    _accelerator_deviceCount getAcceleratorChecked maybe_initialize_device_opt
    at_deviceCount
  rw [hacc]
  simp [hacc]

/-- Witness for the amended C5 at the concrete state `noAccelState`, index
`0` and stream `stream0`. -/
theorem strict_ops_require_accelerator_witness :
    noAccelState.accel = none ∧
    (_accelerator_getDeviceIndex noAccelState = .error .noAccelerator ∧
     _accelerator_deviceCount noAccelState = .ok (0, noAccelState, [])) :=
  ⟨rfl,
    (strict_ops_require_accelerator noAccelState 0 stream0 rfl).2.1,
    (strict_ops_require_accelerator noAccelState 0 stream0 rfl).2.2.2.2.2⟩

/-- C6: with a resolvable accelerator, `_accelerator_deviceCount` first
performs the lazy initialization of the resolved backend (the returned
state has the backend initialized and the trace is the initialization
trace) and then returns the count the enumeration collaborator reports. -/
theorem deviceCount_initializes_first (s : AccelState) (dt : DeviceType)
    (hacc : s.accel = some dt) :
    _accelerator_deviceCount s =
      .ok (at_deviceCount (maybe_initialize_device dt s).1,
           (maybe_initialize_device dt s).1, (maybe_initialize_device dt s).2) ∧
    ((maybe_initialize_device dt s).1).initialized dt = true ∧
    at_deviceCount (maybe_initialize_device dt s).1 = s.devCount := by
  refine ⟨?_, mid_initialized_self dt s, ?_⟩
  · unfold _accelerator_deviceCount maybe_initialize_device_opt
    rw [hacc]
  · unfold at_deviceCount
    rw [mid_accel, hacc, mid_devCount]

/-- Witness for C6 at the concrete state `testState`. -/
theorem deviceCount_initializes_first_witness :
    testState.accel = some DeviceType.cuda ∧
    _accelerator_deviceCount testState =
      .ok (at_deviceCount (maybe_initialize_device DeviceType.cuda testState).1,
           (maybe_initialize_device DeviceType.cuda testState).1,
           (maybe_initialize_device DeviceType.cuda testState).2) ∧
    ((maybe_initialize_device DeviceType.cuda testState).1).initialized
        DeviceType.cuda = true ∧
    at_deviceCount (maybe_initialize_device DeviceType.cuda testState).1
      = testState.devCount :=
  ⟨rfl, deviceCount_initializes_first testState DeviceType.cuda rfl⟩

/-- C7: with a resolvable accelerator whose backend is initialized,
`_accelerator_synchronizeDevice` produces exactly the trace in which the
interpreter lock is released, then the blocking synchronize primitive runs,
then the lock is reacquired, and it returns with the state unchanged. -/
theorem synchronizeDevice_releases_gil (s : AccelState) (dt : DeviceType)
    (i : Int) (hacc : s.accel = some dt) (hinit : s.initialized dt = true) :
    _accelerator_synchronizeDevice i s =
      .ok (s, [Event.gilRelease, Event.synchronizeDevice i, Event.gilReacquire]) := by
  unfold _accelerator_synchronizeDevice getAcceleratorChecked
    is_device_initialized maybe_initialize_device at_synchronizeDevice
  rw [hacc]
  simp [hinit]

/-- Witness for C7 at the concrete initialized state `initState` and index
`0`. -/
theorem synchronizeDevice_releases_gil_witness :
    initState.accel = some DeviceType.cuda ∧
    initState.initialized DeviceType.cuda = true ∧
    _accelerator_synchronizeDevice 0 initState =
      .ok (initState,
           [Event.gilRelease, Event.synchronizeDevice 0, Event.gilReacquire]) :=
  ⟨rfl, rfl,
    synchronizeDevice_releases_gil initState DeviceType.cuda 0 rfl rfl⟩

/-- C8: with a resolvable accelerator, `_accelerator_getStream` performs
only the lazy initialization and returns exactly the stream the
collaborator reports as current for the given device index, unmodified. -/
theorem getStream_returns_current (s : AccelState) (dt : DeviceType) (i : Int)
    (hacc : s.accel = some dt) :
    _accelerator_getStream i s =
      .ok (at_getCurrentStream i s, (maybe_initialize_device dt s).1,
           (maybe_initialize_device dt s).2) ∧
    at_getCurrentStream i s = s.currentStream i ∧
    ((maybe_initialize_device dt s).1).initialized dt = true := by
  refine ⟨?_, rfl, mid_initialized_self dt s⟩
  unfold _accelerator_getStream getAcceleratorChecked at_getCurrentStream
  rw [hacc]
  simp only [mid_currentStream]

/-- Witness for C8 at the concrete state `testState` and index `1`. -/
theorem getStream_returns_current_witness :
    testState.accel = some DeviceType.cuda ∧
    _accelerator_getStream 1 testState =
      .ok (at_getCurrentStream 1 testState,
           (maybe_initialize_device DeviceType.cuda testState).1,
           (maybe_initialize_device DeviceType.cuda testState).2) ∧
    at_getCurrentStream 1 testState = testState.currentStream 1 ∧
    ((maybe_initialize_device DeviceType.cuda testState).1).initialized
        DeviceType.cuda = true :=
  ⟨rfl, getStream_returns_current testState DeviceType.cuda 1 rfl⟩

end TorchAccel
